/- Verification of the arbitrage detection-and-execution engine of a
   prediction-market trading bot.  The Python source is embedded shallowly:
   prices and balances are exact rationals (ℚ), stateful gateway calls are
   explicit state passing, Python exceptions are `Except` values with the
   state at the raise point preserved, and `None` results are `Option`. -/

import Mathlib

set_option maxHeartbeats 1000000

/-! ## Data model -/

/-- A market snapshot as consumed by the detector
    (`market['yes_price']`, `market['no_price']`, identifiers). -/
structure Market where
  id : String
  description : String
  yes_price : ℚ
  no_price : ℚ
deriving Repr, DecidableEq

/-- The opportunity dict built by `ArbitrageDetector.detect_arbitrage`. -/
structure Opportunity where
  market_id : String
  market_description : String
  yes_price : ℚ
  no_price : ℚ
  total_cost : ℚ
  profit_margin : ℚ
  profit_pct : ℚ
  shares_per_dollar : ℚ
  profit_per_dollar : ℚ
  is_arbitrage : Bool
deriving Repr, DecidableEq

/-! ## utils.calculate_profit_margin -/

/-- `utils.calculate_profit_margin`: returns `(is_profitable, profit_margin)`.
    The internal guard `min_profit_threshold = 0.01` is fixed in the function body. -/
def calculate_profit_margin (yes_price no_price : ℚ) (fee_rate : ℚ := 0.02) : Bool × ℚ :=
  let total_cost := yes_price + no_price
  let fees := total_cost * fee_rate
  let total_cost_with_fees := total_cost + fees
  let min_profit_threshold : ℚ := 0.01
  if total_cost_with_fees < 1 - min_profit_threshold then
    (true, 1 - total_cost_with_fees)
  else
    (false, 0)

/-! ## ArbitrageDetector -/

/-- The configuration state of `ArbitrageDetector` (the client reference is
    not used by `detect_arbitrage`/`scan_markets`). -/
structure ArbitrageDetector where
  min_profit_pct : ℚ := 0.01
  fee_rate : ℚ := 0.02
deriving Repr, DecidableEq

/-- `ArbitrageDetector.detect_arbitrage`: returns an opportunity dict or `None`. -/
def ArbitrageDetector.detect_arbitrage (d : ArbitrageDetector) (market : Market) : Option Opportunity :=
  let yes_price := market.yes_price
  let no_price := market.no_price
  if yes_price ≤ 0 ∨ no_price ≤ 0 then none
  else
    let r := calculate_profit_margin yes_price no_price d.fee_rate
    let is_profitable := r.1
    let profit_margin := r.2
    if ¬ is_profitable then none
    else if profit_margin < d.min_profit_pct then none
    else
      let total_cost := yes_price + no_price
      let shares_per_dollar := 1 / total_cost
      let profit_per_dollar := profit_margin
      some {
        market_id := market.id
        market_description := market.description
        yes_price := yes_price
        no_price := no_price
        total_cost := total_cost
        profit_margin := profit_margin
        profit_pct := profit_margin * 100
        shares_per_dollar := shares_per_dollar
        profit_per_dollar := profit_per_dollar
        is_arbitrage := true }

/-- The comparator realised by `opportunities.sort(key=lambda x: x['profit_margin'], reverse=True)`:
    a stable sort placing higher margins first. -/
def oppGE (a b : Opportunity) : Bool := b.profit_margin ≤ a.profit_margin

/-- `ArbitrageDetector.scan_markets`: evaluate each market, keep the opportunities,
    stable-sort by profit margin descending (Python `list.sort` is stable). -/
def ArbitrageDetector.scan_markets (d : ArbitrageDetector) (markets : List Market) : List Opportunity :=
  (markets.filterMap d.detect_arbitrage).mergeSort oppGE

/-! ## Executor and gateway model -/

/-- An order dict as produced by a gateway (`place_order` response). -/
structure Order where
  id : String
  market_id : String
  side : String
  price : ℚ
  size : ℚ
  cost : ℚ
  status : String
deriving Repr, DecidableEq

/-- A position held by the paper-trading ledger. -/
structure Position where
  market_id : String
  side : String
  shares : ℚ
  cost : ℚ
deriving Repr, DecidableEq

/-- The trade result dict built by `ArbitrageExecutor.execute_arbitrage`
    (the wall-clock timestamp is omitted). -/
structure TradeRecord where
  market_id : String
  market_description : String
  yes_order_id : String
  no_order_id : String
  yes_price : ℚ
  no_price : ℚ
  shares : ℚ
  position_size : ℚ
  expected_profit : ℚ
  profit_margin : ℚ
  status : String
deriving Repr, DecidableEq

/-- A gateway call returns `Except.error` when the Python client raises; the
    state component is the client state at return or at the raise point. -/
structure Gateway (σ : Type) where
  get_balance : σ → Except String ℚ × σ
  place_order : String → String → ℚ → ℚ → String → σ → Except String (Option Order) × σ
  cancel_order : String → σ → Except String Bool × σ

/-- The configuration of `ArbitrageExecutor`. -/
structure ArbitrageExecutor where
  max_position_size : ℚ := 1000
  max_slippage_pct : ℚ := 0.02
deriving Repr, DecidableEq

/-- `ArbitrageExecutor.calculate_position_size`: 10%-of-capital base, scaled by
    `1 + profit_margin * 10`, capped by the max size and 20% of capital,
    floored at 100. -/
def ArbitrageExecutor.calculate_position_size (ex : ArbitrageExecutor)
    (opportunity : Opportunity) (available_capital : ℚ) : ℚ :=
  let base_size := min ex.max_position_size (available_capital * 0.1)
  let profit_margin := opportunity.profit_margin
  let scaled_size := base_size * (1 + profit_margin * 10)
  let position_size := min (min scaled_size ex.max_position_size) (available_capital * 0.2)
  max position_size 100

/-- The body of the `try:` block of `ArbitrageExecutor.execute_arbitrage`.
    `Except.error` means a Python exception escaped the block; the paired
    state is the client state at that point. -/
def ArbitrageExecutor.execute_body {σ : Type} (g : Gateway σ) (ex : ArbitrageExecutor)
    (opportunity : Opportunity) (trades : List TradeRecord) (s : σ) :
    Except String (Option TradeRecord × List TradeRecord) × σ :=
  match g.get_balance s with
  | (.error e, s1) => (.error e, s1)
  | (.ok balance, s1) =>
    if balance < 100 then (.ok (none, trades), s1)
    else
      let position_size := ex.calculate_position_size opportunity balance
      let total_cost := opportunity.total_cost
      let shares := position_size / total_cost
      match g.place_order opportunity.market_id "BUY"
          (opportunity.yes_price * (1 + ex.max_slippage_pct)) shares "LIMIT" s1 with
      | (.error e, s2) => (.error e, s2)
      | (.ok yes_order, s2) =>
        match g.place_order opportunity.market_id "BUY"
            (opportunity.no_price * (1 + ex.max_slippage_pct)) shares "LIMIT" s2 with
        | (.error e, s3) => (.error e, s3)
        | (.ok no_order, s3) =>
          match yes_order, no_order with
          | some yo, some no_ =>
            let trade : TradeRecord := {
              market_id := opportunity.market_id
              market_description := opportunity.market_description
              yes_order_id := yo.id
              no_order_id := no_.id
              yes_price := opportunity.yes_price
              no_price := opportunity.no_price
              shares := shares
              position_size := position_size
              expected_profit := position_size * opportunity.profit_margin
              profit_margin := opportunity.profit_margin
              status := "executed" }
            (.ok (some trade, trades ++ [trade]), s3)
          | _, _ =>
            match (match yes_order with
                   | some o => g.cancel_order o.id s3
                   | none => (.ok true, s3)) with
            | (.error e, s4) => (.error e, s4)
            | (.ok _, s4) =>
              match (match no_order with
                     | some o => g.cancel_order o.id s4
                     | none => (.ok true, s4)) with
              | (.error e, s5) => (.error e, s5)
              | (.ok _, s5) => (.ok (none, trades), s5)

/-- `ArbitrageExecutor.execute_arbitrage`: runs the body and catches any
    exception, converting it into a `None` result with the trade history
    untouched (`self.executed_trades` is threaded through `trades`). -/
def ArbitrageExecutor.execute_arbitrage {σ : Type} (g : Gateway σ) (ex : ArbitrageExecutor)
    (opportunity : Opportunity) (trades : List TradeRecord) (s : σ) :
    Option TradeRecord × List TradeRecord × σ :=
  match ex.execute_body g opportunity trades s with
  | (.ok (r, trades'), s') => (r, trades', s')
  | (.error _, s') => (none, trades, s')

/-! ## PaperTradingClient -/

/-- The mutable state of `PaperTradingClient` (the read-only market-data side
    is external; `trades` from market resolution is not reached by the engine). -/
structure PaperState where
  balance : ℚ
  orders : List Order
  positions : List Position
deriving Repr, DecidableEq

/-- `PaperTradingClient.place_order`: rejects when `cost > balance`,
    otherwise appends a FILLED order and deducts the cost. Never raises. -/
def PaperTradingClient.place_order (market_id side : String) (price size : ℚ)
    (order_type : String) (s : PaperState) : Except String (Option Order) × PaperState :=
  let cost := price * size
  if cost > s.balance then (.ok none, s)
  else
    let order : Order := {
      id := "paper_order_" ++ toString s.orders.length
      market_id := market_id
      side := side
      price := price
      size := size
      cost := cost
      status := "FILLED" }
    (.ok (some order), { s with orders := s.orders ++ [order], balance := s.balance - cost })

/-- `PaperTradingClient.cancel_order`: logs and returns `True`; the ledger is
    untouched (no refund of any deducted cost). Never raises. -/
def PaperTradingClient.cancel_order (order_id : String) (s : PaperState) :
    Except String Bool × PaperState :=
  (.ok true, s)

/-- `PaperTradingClient.get_balance`. Never raises. -/
def PaperTradingClient.get_balance (s : PaperState) : Except String ℚ × PaperState :=
  (.ok s.balance, s)

/-- The simulated gateway assembled from the paper-trading client. -/
def paperGateway : Gateway PaperState where
  get_balance := PaperTradingClient.get_balance
  place_order := PaperTradingClient.place_order
  cancel_order := PaperTradingClient.cancel_order

/-! ## Scan-loop cycle (bot.scan_for_arbitrage body) -/

/-- The bot's running statistics (`self.stats`). -/
structure BotStats where
  scans : Nat
  opportunities_found : Nat
  trades_executed : Nat
  total_profit : ℚ
deriving Repr, DecidableEq

/-- One iteration of `ArbitrageBot.scan_for_arbitrage` over a fed market list
    (the paper client's market feed comes from the external data API, modelled
    here as the input list). Returns the trade history, client state and stats
    after the cycle. -/
def scan_cycle {σ : Type} (d : ArbitrageDetector) (ex : ArbitrageExecutor) (g : Gateway σ)
    (markets : List Market) (trades : List TradeRecord) (s : σ) (stats : BotStats) :
    List TradeRecord × σ × BotStats :=
  if markets.isEmpty then (trades, s, stats)
  else
    let opportunities := d.scan_markets markets
    let stats1 : BotStats := { stats with scans := stats.scans + 1 }
    match opportunities with
    | [] => (trades, s, stats1)
    | best :: rest =>
      let stats2 : BotStats :=
        { stats1 with opportunities_found := stats1.opportunities_found + (best :: rest).length }
      match ex.execute_arbitrage g best trades s with
      | (some result, trades', s') =>
        (trades', s',
         { stats2 with
            trades_executed := stats2.trades_executed + 1
            total_profit := stats2.total_profit + result.expected_profit })
      | (none, trades', s') => (trades', s', stats2)

/-! ## Concrete fixtures -/

/-- The boundary market of the regression scenario: yes 0.52, no 0.46. -/
def boundaryMarket : Market :=
  { id := "test_market", description := "Test market", yes_price := 0.52, no_price := 0.46 }

/-- A genuinely mispriced market: yes 0.50, no 0.44. -/
def cheapMarket : Market :=
  { id := "cheap_market", description := "Cheap market", yes_price := 0.50, no_price := 0.44 }

/-- The opportunity `detect_arbitrage` builds from `cheapMarket` with the default
    configuration (`profit_margin = 1 - 0.94 * 1.02 = 103/2500`). -/
def cheapOpp : Opportunity :=
  { market_id := "cheap_market", market_description := "Cheap market"
    yes_price := 0.50, no_price := 0.44, total_cost := 47/50
    profit_margin := 103/2500, profit_pct := 103/25
    shares_per_dollar := 50/47, profit_per_dollar := 103/2500, is_arbitrage := true }

/-! ## Helper lemmas -/

/-- Branch-free description of `detect_arbitrage`: it succeeds exactly on
    positive prices passing the fixed 1% guard on cost-plus-fees and the
    caller margin threshold, and then emits the opportunity record. -/
theorem detect_arbitrage_eq (d : ArbitrageDetector) (m : Market) :
    d.detect_arbitrage m =
      if 0 < m.yes_price ∧ 0 < m.no_price ∧
          m.yes_price + m.no_price + (m.yes_price + m.no_price) * d.fee_rate < 1 - 0.01 ∧
          d.min_profit_pct ≤
            1 - (m.yes_price + m.no_price + (m.yes_price + m.no_price) * d.fee_rate)
      then some {
        market_id := m.id
        market_description := m.description
        yes_price := m.yes_price
        no_price := m.no_price
        total_cost := m.yes_price + m.no_price
        profit_margin := 1 - (m.yes_price + m.no_price + (m.yes_price + m.no_price) * d.fee_rate)
        profit_pct := (1 - (m.yes_price + m.no_price + (m.yes_price + m.no_price) * d.fee_rate)) * 100
        shares_per_dollar := 1 / (m.yes_price + m.no_price)
        profit_per_dollar := 1 - (m.yes_price + m.no_price + (m.yes_price + m.no_price) * d.fee_rate)
        is_arbitrage := true }
      else none := by
  simp only [ArbitrageDetector.detect_arbitrage, calculate_profit_margin]
  by_cases h1 : m.yes_price ≤ 0 ∨ m.no_price ≤ 0
  · rw [if_pos h1, if_neg]
    rintro ⟨hy, hn, -, -⟩
    rcases h1 with h | h <;> linarith
  · rw [if_neg h1]
    push_neg at h1
    by_cases h2 : m.yes_price + m.no_price + (m.yes_price + m.no_price) * d.fee_rate < 1 - 0.01
    · rw [if_pos h2,
        if_neg (show ¬ ¬ (((true,
          1 - (m.yes_price + m.no_price + (m.yes_price + m.no_price) * d.fee_rate)) :
            Bool × ℚ).1 = true) by simp)]
      by_cases h3 : ((true,
          1 - (m.yes_price + m.no_price + (m.yes_price + m.no_price) * d.fee_rate)) :
            Bool × ℚ).2 < d.min_profit_pct
      · rw [if_pos h3, if_neg]
        rintro ⟨-, -, -, hm⟩
        exact absurd hm (not_le.mpr h3)
      · rw [if_neg h3, if_pos ⟨h1.1, h1.2, h2, not_lt.mp h3⟩]
    · rw [if_neg h2,
        if_pos (show ¬ (((false, (0:ℚ)) : Bool × ℚ).1 = true) by simp),
        if_neg (fun h => h2 h.2.2.1)]

/-- Success of `detect_arbitrage` as a proposition. -/
theorem detect_arbitrage_isSome_iff (d : ArbitrageDetector) (m : Market) :
    (d.detect_arbitrage m).isSome ↔
      0 < m.yes_price ∧ 0 < m.no_price ∧
      m.yes_price + m.no_price + (m.yes_price + m.no_price) * d.fee_rate < 1 - 0.01 ∧
      d.min_profit_pct ≤
        1 - (m.yes_price + m.no_price + (m.yes_price + m.no_price) * d.fee_rate) := by
  rw [detect_arbitrage_eq]
  by_cases h : 0 < m.yes_price ∧ 0 < m.no_price ∧
      m.yes_price + m.no_price + (m.yes_price + m.no_price) * d.fee_rate < 1 - 0.01 ∧
      d.min_profit_pct ≤
        1 - (m.yes_price + m.no_price + (m.yes_price + m.no_price) * d.fee_rate)
  · rw [if_pos h]; simpa using h
  · rw [if_neg h]; simpa using h

/-- The default detector configuration of `bot.initialize`. -/
def defaultDetector : ArbitrageDetector := { min_profit_pct := 0.01, fee_rate := 0.02 }

/-- The default executor configuration of `bot.initialize`. -/
def defaultExecutor : ArbitrageExecutor := { max_position_size := 1000, max_slippage_pct := 0.02 }

/-- The boundary market is rejected: `0.9996` is not below the `0.99` guard. -/
theorem detect_boundaryMarket_none :
    defaultDetector.detect_arbitrage boundaryMarket = none := by
  rw [detect_arbitrage_eq, if_neg]
  rintro ⟨-, -, hc, -⟩
  simp only [boundaryMarket, defaultDetector] at hc
  norm_num at hc

/-- The cheap market is accepted with margin `103/2500 = 0.0412`. -/
theorem detect_cheapMarket_some :
    defaultDetector.detect_arbitrage cheapMarket = some cheapOpp := by
  rw [detect_arbitrage_eq, if_pos]
  · simp only [cheapMarket, defaultDetector, cheapOpp, Option.some.injEq, Opportunity.mk.injEq]
    norm_num
  · simp only [cheapMarket, defaultDetector]
    norm_num

/-! ## C1 -/

/-- C1: `detect_arbitrage` returns an opportunity iff both prices are positive,
    `totalCostWithFees = (yesPrice+noPrice)*(1+feeRate)` is strictly below
    `1 - 0.01`, and `profitMargin = 1 - totalCostWithFees` is at least
    `min_profit_pct`; and whenever `yesPrice+noPrice+((yesPrice+noPrice)*feeRate)`
    is at least `0.99` it returns none. -/
theorem C1_evaluate_characterisation (d : ArbitrageDetector) (m : Market) :
    ((d.detect_arbitrage m).isSome ↔
      0 < m.yes_price ∧ 0 < m.no_price ∧
      (m.yes_price + m.no_price) * (1 + d.fee_rate) < 1 - 0.01 ∧
      d.min_profit_pct ≤ 1 - (m.yes_price + m.no_price) * (1 + d.fee_rate)) ∧
    (∀ yp np fr mp id descr,
      0.99 ≤ yp + np + (yp + np) * fr →
      ArbitrageDetector.detect_arbitrage ⟨mp, fr⟩ ⟨id, descr, yp, np⟩ = none) := by
  constructor
  · rw [detect_arbitrage_isSome_iff]
    have e : (m.yes_price + m.no_price) * (1 + d.fee_rate)
        = m.yes_price + m.no_price + (m.yes_price + m.no_price) * d.fee_rate := by ring
    rw [e]
  · intro yp np fr mp id descr h
    rw [detect_arbitrage_eq, if_neg]
    rintro ⟨-, -, hc, -⟩
    simp only at hc
    norm_num at h hc
    linarith

/-- Witness for C1 at the boundary triple `(0.52, 0.46, 0.02)`. -/
theorem C1_evaluate_characterisation_witness :
    (0.99 : ℚ) ≤ 0.52 + 0.46 + (0.52 + 0.46) * 0.02 ∧
    ArbitrageDetector.detect_arbitrage ⟨0.01, 0.02⟩ ⟨"m1", "d1", 0.52, 0.46⟩ = none :=
  ⟨by norm_num,
   (C1_evaluate_characterisation ⟨0.01, 0.02⟩ ⟨"m1", "d1", 0.52, 0.46⟩).2
     0.52 0.46 0.02 0.01 "m1" "d1" (by norm_num)⟩

/-! ## C3 -/

/-- C3: the position size is exactly
    `max(min(min(maxPositionSize, capital*0.1)*(1+margin*10), maxPositionSize, capital*0.2), 100)`,
    hence always at least 100; with capital 200 it is exactly 100 even though
    `200*0.2 = 40`. -/
theorem C3_position_sizing (ex : ArbitrageExecutor) (opportunity : Opportunity)
    (available_capital : ℚ) :
    (ex.calculate_position_size opportunity available_capital =
      max (min (min (min ex.max_position_size (available_capital * 0.1) *
            (1 + opportunity.profit_margin * 10)) ex.max_position_size)
          (available_capital * 0.2)) 100) ∧
    100 ≤ ex.calculate_position_size opportunity available_capital ∧
    ex.calculate_position_size opportunity 200 = 100 := by
  refine ⟨rfl, ?_, ?_⟩
  · simp only [ArbitrageExecutor.calculate_position_size]
    exact le_max_right _ _
  · simp only [ArbitrageExecutor.calculate_position_size]
    exact max_eq_right ((min_le_right _ _).trans (by norm_num))

/-! ## C4 -/

/-- The comparator of `scan_markets` is transitive. -/
theorem oppGE_trans (a b c : Opportunity) : oppGE a b → oppGE b c → oppGE a c := by
  simp only [oppGE, decide_eq_true_eq]
  intro hab hbc
  exact hbc.trans hab

/-- The comparator of `scan_markets` is total. -/
theorem oppGE_total (a b : Opportunity) : oppGE a b || oppGE b a := by
  simp only [oppGE, Bool.or_eq_true, decide_eq_true_eq]
  exact le_total b.profit_margin a.profit_margin

/-- C4: `scan_markets` returns the accepted opportunities (a permutation of the
    `detect_arbitrage` survivors, in particular exactly those markets), sorted
    by profit margin descending; the sort is stable (an in-order pair of the
    filtered list with non-increasing margins stays in order); and scanning the
    same input twice yields identical output — the embedding is a pure
    function of the detector configuration and the input list. -/
theorem C4_scan_sorted_stable (d : ArbitrageDetector) (markets : List Market) :
    (d.scan_markets markets).Pairwise (fun a b => b.profit_margin ≤ a.profit_margin) ∧
    (d.scan_markets markets).Perm (markets.filterMap d.detect_arbitrage) ∧
    (∀ a b : Opportunity, b.profit_margin ≤ a.profit_margin →
      [a, b].Sublist (markets.filterMap d.detect_arbitrage) →
      [a, b].Sublist (d.scan_markets markets)) ∧
    d.scan_markets markets = d.scan_markets markets := by
  refine ⟨?_, ?_, ?_, rfl⟩
  · have h := List.sorted_mergeSort oppGE_trans oppGE_total
      (markets.filterMap d.detect_arbitrage)
    exact h.imp (fun hab => by simpa [oppGE] using hab)
  · exact List.mergeSort_perm _ _
  · intro a b hle hsub
    exact List.pair_sublist_mergeSort oppGE_trans oppGE_total
      (by simpa [oppGE] using hle) hsub

/-- A second copy of the cheap market, for the stability witness. -/
def cheapMarketB : Market :=
  { id := "cheap_market_b", description := "Cheap market B", yes_price := 0.50, no_price := 0.44 }

/-- The opportunity produced from `cheapMarketB`. -/
def cheapOppB : Opportunity :=
  { market_id := "cheap_market_b", market_description := "Cheap market B"
    yes_price := 0.50, no_price := 0.44, total_cost := 47/50
    profit_margin := 103/2500, profit_pct := 103/25
    shares_per_dollar := 50/47, profit_per_dollar := 103/2500, is_arbitrage := true }

/-- `cheapMarketB` is also accepted. -/
theorem detect_cheapMarketB_some :
    defaultDetector.detect_arbitrage cheapMarketB = some cheapOppB := by
  rw [detect_arbitrage_eq, if_pos]
  · simp only [cheapMarketB, defaultDetector, cheapOppB, Option.some.injEq, Opportunity.mk.injEq]
    norm_num
  · simp only [cheapMarketB, defaultDetector]
    norm_num

/-- Witness for C4: two equal-margin opportunities keep their input order. -/
theorem C4_scan_sorted_stable_witness :
    cheapOppB.profit_margin ≤ cheapOpp.profit_margin ∧
    [cheapOpp, cheapOppB].Sublist
      (defaultDetector.scan_markets [cheapMarket, cheapMarketB]) := by
  have hsub : [cheapOpp, cheapOppB].Sublist
      ([cheapMarket, cheapMarketB].filterMap defaultDetector.detect_arbitrage) := by
    simp only [List.filterMap_cons, detect_cheapMarket_some, detect_cheapMarketB_some,
      List.filterMap_nil]
    exact List.Sublist.refl _
  exact ⟨by norm_num [cheapOpp, cheapOppB],
    (C4_scan_sorted_stable defaultDetector [cheapMarket, cheapMarketB]).2.2.1 cheapOpp cheapOppB
      (by norm_num [cheapOpp, cheapOppB]) hsub⟩

/-! ## C2 -/

/-- C2 (amended): when exactly one leg's placement returns no order,
    `execute_arbitrage` returns none with the trade history untouched and the
    final client state is the state after attempting a compensating cancel of
    the succeeding leg, whatever boolean that cancel returns (parts 1 and 2:
    yes-leg resp. no-leg succeeded, for an arbitrary gateway); for the
    simulated gateway the balance ends at the starting balance minus the cost
    deducted for the leg that succeeded — the simulated cancel does not refund
    it (part 3). -/
theorem C2_one_leg_failure (σ : Type) (g : Gateway σ) :
    (∀ (ex : ArbitrageExecutor) (opportunity : Opportunity) (trades : List TradeRecord)
        (s s1 s2 s3 s4 : σ) (bal : ℚ) (yo : Order) (cr : Bool),
      g.get_balance s = (.ok bal, s1) →
      ¬ bal < 100 →
      g.place_order opportunity.market_id "BUY"
          (opportunity.yes_price * (1 + ex.max_slippage_pct))
          (ArbitrageExecutor.calculate_position_size ex opportunity bal / opportunity.total_cost)
          "LIMIT" s1 = (.ok (some yo), s2) →
      g.place_order opportunity.market_id "BUY"
          (opportunity.no_price * (1 + ex.max_slippage_pct))
          (ArbitrageExecutor.calculate_position_size ex opportunity bal / opportunity.total_cost)
          "LIMIT" s2 = (.ok none, s3) →
      g.cancel_order yo.id s3 = (.ok cr, s4) →
      ArbitrageExecutor.execute_arbitrage g ex opportunity trades s = (none, trades, s4)) ∧
    (∀ (ex : ArbitrageExecutor) (opportunity : Opportunity) (trades : List TradeRecord)
        (s s1 s2 s3 s4 : σ) (bal : ℚ) (no_ : Order) (cr : Bool),
      g.get_balance s = (.ok bal, s1) →
      ¬ bal < 100 →
      g.place_order opportunity.market_id "BUY"
          (opportunity.yes_price * (1 + ex.max_slippage_pct))
          (ArbitrageExecutor.calculate_position_size ex opportunity bal / opportunity.total_cost)
          "LIMIT" s1 = (.ok none, s2) →
      g.place_order opportunity.market_id "BUY"
          (opportunity.no_price * (1 + ex.max_slippage_pct))
          (ArbitrageExecutor.calculate_position_size ex opportunity bal / opportunity.total_cost)
          "LIMIT" s2 = (.ok (some no_), s3) →
      g.cancel_order no_.id s3 = (.ok cr, s4) →
      ArbitrageExecutor.execute_arbitrage g ex opportunity trades s = (none, trades, s4)) ∧
    (∀ (ex : ArbitrageExecutor) (opportunity : Opportunity) (trades : List TradeRecord)
        (s : PaperState),
      ¬ s.balance < 100 →
      opportunity.yes_price * (1 + ex.max_slippage_pct) *
          (ArbitrageExecutor.calculate_position_size ex opportunity s.balance /
            opportunity.total_cost) ≤ s.balance →
      s.balance - opportunity.yes_price * (1 + ex.max_slippage_pct) *
          (ArbitrageExecutor.calculate_position_size ex opportunity s.balance /
            opportunity.total_cost) <
        opportunity.no_price * (1 + ex.max_slippage_pct) *
          (ArbitrageExecutor.calculate_position_size ex opportunity s.balance /
            opportunity.total_cost) →
      (ArbitrageExecutor.execute_arbitrage paperGateway ex opportunity trades s).1 = none ∧
      (ArbitrageExecutor.execute_arbitrage paperGateway ex opportunity trades s).2.1 = trades ∧
      (ArbitrageExecutor.execute_arbitrage paperGateway ex opportunity trades s).2.2.balance =
        s.balance - opportunity.yes_price * (1 + ex.max_slippage_pct) *
          (ArbitrageExecutor.calculate_position_size ex opportunity s.balance /
            opportunity.total_cost)) := by
  refine ⟨?_, ?_, ?_⟩
  · intro ex opportunity trades s s1 s2 s3 s4 bal yo cr hbal hge hyes hno hcancel
    simp only [ArbitrageExecutor.execute_arbitrage, ArbitrageExecutor.execute_body,
      hbal, if_neg hge, hyes, hno, hcancel]
  · intro ex opportunity trades s s1 s2 s3 s4 bal no_ cr hbal hge hyes hno hcancel
    simp only [ArbitrageExecutor.execute_arbitrage, ArbitrageExecutor.execute_body,
      hbal, if_neg hge, hyes, hno, hcancel]
  · intro ex opportunity trades s hge hyc hnc
    simp only [ArbitrageExecutor.execute_arbitrage, ArbitrageExecutor.execute_body,
      paperGateway, PaperTradingClient.get_balance, PaperTradingClient.place_order,
      PaperTradingClient.cancel_order, if_neg hge, if_neg (not_lt.mpr hyc), if_pos hnc]
    exact ⟨trivial, trivial, trivial⟩

/-- Witness for C2 at the concrete one-leg-failure scenario (balance 100,
    cheap opportunity: YES leg fills, NO leg is rejected). -/
theorem C2_one_leg_failure_witness :
    (¬ (⟨100, [], []⟩ : PaperState).balance < 100) ∧
    ((ArbitrageExecutor.execute_arbitrage paperGateway defaultExecutor cheapOpp []
        ⟨100, [], []⟩).1 = none ∧
     (ArbitrageExecutor.execute_arbitrage paperGateway defaultExecutor cheapOpp []
        ⟨100, [], []⟩).2.1 = ([] : List TradeRecord) ∧
     (ArbitrageExecutor.execute_arbitrage paperGateway defaultExecutor cheapOpp []
        ⟨100, [], []⟩).2.2.balance =
       (⟨100, [], []⟩ : PaperState).balance -
         cheapOpp.yes_price * (1 + defaultExecutor.max_slippage_pct) *
           (ArbitrageExecutor.calculate_position_size defaultExecutor cheapOpp
              (⟨100, [], []⟩ : PaperState).balance / cheapOpp.total_cost)) :=
  ⟨by norm_num,
   (C2_one_leg_failure PaperState paperGateway).2.2 defaultExecutor cheapOpp [] ⟨100, [], []⟩
     (by norm_num)
     (by norm_num [ArbitrageExecutor.calculate_position_size, defaultExecutor, cheapOpp])
     (by norm_num [ArbitrageExecutor.calculate_position_size, defaultExecutor, cheapOpp])⟩

/-- C2 counterexample: a concrete one-leg failure on the simulated gateway in
    which the balance is NOT left unaffected. Starting from balance 100, the
    YES leg fills (cost `2550/47 ≈ 54.26`), the NO leg is rejected, the cancel
    refunds nothing, and the final balance is `2150/47 ≈ 45.74 ≠ 100`. -/
theorem C2_counterexample :
    (ArbitrageExecutor.execute_arbitrage paperGateway defaultExecutor cheapOpp []
        ⟨100, [], []⟩).1 = none ∧
    (ArbitrageExecutor.execute_arbitrage paperGateway defaultExecutor cheapOpp []
        ⟨100, [], []⟩).2.2.orders.length = 1 ∧
    ¬ ((ArbitrageExecutor.execute_arbitrage paperGateway defaultExecutor cheapOpp []
        ⟨100, [], []⟩).2.2.balance = 100) := by
  have hps : ArbitrageExecutor.calculate_position_size defaultExecutor cheapOpp 100 = 100 := by
    simp only [ArbitrageExecutor.calculate_position_size, defaultExecutor, cheapOpp]
    norm_num
  simp only [ArbitrageExecutor.execute_arbitrage, ArbitrageExecutor.execute_body,
    paperGateway, PaperTradingClient.get_balance, PaperTradingClient.place_order,
    PaperTradingClient.cancel_order]
  simp only [hps]
  simp only [cheapOpp, defaultExecutor]
  norm_num

/-! ## C6 -/

/-- C6: at `(0.52, 0.46, 0.02)` the intermediate values are `0.98`, `0.0196`
    and `0.9996`; `0.9996` is not below `0.99`, so `calculate_profit_margin`
    reports not-profitable and `detect_arbitrage` returns none. -/
theorem C6_boundary_rejected :
    (0.52 : ℚ) + 0.46 = 0.98 ∧
    ((0.52 : ℚ) + 0.46) * 0.02 = 0.0196 ∧
    (0.52 : ℚ) + 0.46 + ((0.52 : ℚ) + 0.46) * 0.02 = 0.9996 ∧
    ¬ ((0.9996 : ℚ) < 0.99) ∧
    calculate_profit_margin 0.52 0.46 0.02 = (false, 0) ∧
    defaultDetector.detect_arbitrage boundaryMarket = none := by
  refine ⟨by norm_num, by norm_num, by norm_num, by norm_num, ?_, detect_boundaryMarket_none⟩
  simp only [calculate_profit_margin]
  norm_num

/-! ## C5 -/

/-- Evaluation of one scan-loop cycle on the boundary market with a fresh
    simulated gateway: the detector rejects the market, so the cycle only
    increments the scan counter. -/
theorem scan_cycle_boundary_eq :
    scan_cycle defaultDetector defaultExecutor paperGateway [boundaryMarket]
        [] ⟨10000, [], []⟩ ⟨0, 0, 0, 0⟩ =
      ([], ⟨10000, [], []⟩, ⟨1, 0, 0, 0⟩) := by
  simp only [scan_cycle, ArbitrageDetector.scan_markets, List.filterMap_cons,
    detect_boundaryMarket_none, List.filterMap_nil, List.mergeSort_nil, List.isEmpty_cons,
    Bool.false_eq_true, if_false]

/-- C5 (amended): one scan-loop cycle over the single market
    `{yesPrice: 0.52, noPrice: 0.46}` with balance 10000 produces no
    TradeRecord, `trades_executed = 0` and `total_profit = 0`, with the
    simulated balance untouched — the detector rejects the market
    (`totalCostWithFees = 0.9996` is not below `0.99`). -/
theorem C5_single_cycle_no_trade :
    (scan_cycle defaultDetector defaultExecutor paperGateway [boundaryMarket]
        [] ⟨10000, [], []⟩ ⟨0, 0, 0, 0⟩).1 = [] ∧
    (scan_cycle defaultDetector defaultExecutor paperGateway [boundaryMarket]
        [] ⟨10000, [], []⟩ ⟨0, 0, 0, 0⟩).2.2.trades_executed = 0 ∧
    (scan_cycle defaultDetector defaultExecutor paperGateway [boundaryMarket]
        [] ⟨10000, [], []⟩ ⟨0, 0, 0, 0⟩).2.2.total_profit = 0 ∧
    (scan_cycle defaultDetector defaultExecutor paperGateway [boundaryMarket]
        [] ⟨10000, [], []⟩ ⟨0, 0, 0, 0⟩).2.1 = ⟨10000, [], []⟩ := by
  rw [scan_cycle_boundary_eq]
  exact ⟨rfl, rfl, rfl, rfl⟩

/-- C5 counterexample: the cycle does not produce one TradeRecord with
    `trades_executed = 1` — both counts are 0, not 1. -/
theorem C5_counterexample :
    ¬ ((scan_cycle defaultDetector defaultExecutor paperGateway [boundaryMarket]
          [] ⟨10000, [], []⟩ ⟨0, 0, 0, 0⟩).1.length = 1 ∧
       (scan_cycle defaultDetector defaultExecutor paperGateway [boundaryMarket]
          [] ⟨10000, [], []⟩ ⟨0, 0, 0, 0⟩).2.2.trades_executed = 1) := by
  rw [scan_cycle_boundary_eq]
  rintro ⟨h, -⟩
  simp at h

/-! ## C7 -/

/-- C7: with the simulated gateway, a starting balance strictly below 100 makes
    `execute_arbitrage` return none with the client state and trade history
    untouched. -/
theorem C7_insufficient_balance (ex : ArbitrageExecutor) (opportunity : Opportunity)
    (trades : List TradeRecord) (s : PaperState) (h : s.balance < 100) :
    ArbitrageExecutor.execute_arbitrage paperGateway ex opportunity trades s =
      (none, trades, s) := by
  simp only [ArbitrageExecutor.execute_arbitrage, ArbitrageExecutor.execute_body,
    paperGateway, PaperTradingClient.get_balance, if_pos h]

/-- Witness for C7 at balance 50. -/
theorem C7_insufficient_balance_witness :
    ((⟨50, [], []⟩ : PaperState).balance < 100) ∧
    ArbitrageExecutor.execute_arbitrage paperGateway defaultExecutor cheapOpp [] ⟨50, [], []⟩ =
      (none, [], ⟨50, [], []⟩) :=
  ⟨by norm_num,
   C7_insufficient_balance defaultExecutor cheapOpp [] ⟨50, [], []⟩ (by norm_num)⟩

/-! ## C8 -/

/-- C8: any exception escaping the `try:` body of `execute_arbitrage` — for any
    gateway — is caught and converted into a none result, so no gateway fault
    propagates to the caller. -/
theorem C8_gateway_fault_caught {σ : Type} (g : Gateway σ) (ex : ArbitrageExecutor)
    (opportunity : Opportunity) (trades : List TradeRecord) (s s' : σ) (e : String)
    (h : ArbitrageExecutor.execute_body g ex opportunity trades s = (.error e, s')) :
    ArbitrageExecutor.execute_arbitrage g ex opportunity trades s = (none, trades, s') := by
  simp only [ArbitrageExecutor.execute_arbitrage, h]

/-- A gateway whose every call raises. -/
def faultyGateway : Gateway Unit where
  get_balance := fun s => (.error "connection reset", s)
  place_order := fun _ _ _ _ _ s => (.error "connection reset", s)
  cancel_order := fun _ s => (.error "connection reset", s)

/-- Witness for C8 with a gateway that raises on `get_balance`. -/
theorem C8_gateway_fault_caught_witness :
    ArbitrageExecutor.execute_arbitrage faultyGateway defaultExecutor cheapOpp [] () =
      (none, [], ()) :=
  C8_gateway_fault_caught faultyGateway defaultExecutor cheapOpp [] () () "connection reset" rfl

/-! ## C9 -/

/-- C9: `PaperTradingClient.cancel_order` always returns `True` and leaves the
    balance, orders and positions unchanged; in particular cancelling after a
    `place_order` does not refund the deducted cost. -/
theorem C9_cancel_order_pure (order_id : String) (s : PaperState)
    (market_id side : String) (price size : ℚ) (order_type : String) :
    PaperTradingClient.cancel_order order_id s = (.ok true, s) ∧
    (PaperTradingClient.cancel_order order_id s).2.balance = s.balance ∧
    (PaperTradingClient.cancel_order order_id s).2.orders = s.orders ∧
    (PaperTradingClient.cancel_order order_id s).2.positions = s.positions ∧
    (PaperTradingClient.cancel_order order_id
        (PaperTradingClient.place_order market_id side price size order_type s).2).2.balance =
      (PaperTradingClient.place_order market_id side price size order_type s).2.balance :=
  ⟨rfl, rfl, rfl, rfl, rfl⟩

/-! ## C10 -/

/-- C10: the simulated `place_order` returns none exactly when `price*size`
    strictly exceeds the balance (cost equal to the balance is accepted); on
    success it appends a FILLED order of cost `price*size` and deducts exactly
    that cost. -/
theorem C10_place_order_spec (market_id side : String) (price size : ℚ)
    (order_type : String) (s : PaperState) :
    ((PaperTradingClient.place_order market_id side price size order_type s).1 = .ok none ↔
      s.balance < price * size) ∧
    (price * size ≤ s.balance →
      PaperTradingClient.place_order market_id side price size order_type s =
        (.ok (some { id := "paper_order_" ++ toString s.orders.length
                     market_id := market_id, side := side, price := price, size := size
                     cost := price * size, status := "FILLED" }),
         { balance := s.balance - price * size
           orders := s.orders ++ [{ id := "paper_order_" ++ toString s.orders.length
                                    market_id := market_id, side := side, price := price
                                    size := size, cost := price * size, status := "FILLED" }]
           positions := s.positions })) := by
  constructor
  · simp only [PaperTradingClient.place_order]
    by_cases h : price * size > s.balance
    · rw [if_pos h]
      simpa using h
    · rw [if_neg h]
      simp [h]
  · intro h
    simp only [PaperTradingClient.place_order, if_neg (not_lt.mpr h)]

/-- Witness for C10: a cost exactly equal to the balance is accepted and
    drains it to zero. -/
theorem C10_place_order_spec_witness :
    (2 * 5 : ℚ) ≤ (⟨10, [], []⟩ : PaperState).balance ∧
    PaperTradingClient.place_order "m" "BUY" 2 5 "LIMIT" ⟨10, [], []⟩ =
      (.ok (some { id := "paper_order_" ++ toString ([] : List Order).length
                   market_id := "m", side := "BUY", price := 2, size := 5
                   cost := 2 * 5, status := "FILLED" }),
       { balance := (10 : ℚ) - 2 * 5
         orders := [] ++ [{ id := "paper_order_" ++ toString ([] : List Order).length
                            market_id := "m", side := "BUY", price := 2, size := 5
                            cost := 2 * 5, status := "FILLED" }]
         positions := [] }) :=
  ⟨by norm_num,
   (C10_place_order_spec "m" "BUY" 2 5 "LIMIT" ⟨10, [], []⟩).2 (by norm_num)⟩
